import Mathlib

/-!
Shallow embedding of `src/daily_signal_generator.py` (a daily gold-ETF
premium reporting script) and verification of the specification's claims
about it.

Modelling conventions:
* Python floats are modelled as `ℚ`; `round(x, 2)` and the `%.2f`-style
  format specifiers are modelled with round-half-to-even decimal rounding.
* Python exceptions are modelled with `Except PyError`; a `PyError` carries
  the exception class name (`type(e).__name__`) and the message.
* The history file on disk is modelled by `FileContent`: absent, text that
  fails JSON decoding (`json.JSONDecodeError`), or text decoding to a JSON
  value (`JsonValue`).  `json.dump`/`json.load` are modelled by the encode
  and decode functions on `JsonValue`.
* External services (Yahoo Finance ticker data, the OpenAI client, the
  Telegram channel) are inputs of the run: ticker field dictionaries,
  availability flags and canned responses.
-/

/-- Python `l[-n:]` (last `n` elements, all of them when `l` is shorter). -/
def takeLast {α : Type} (n : ℕ) (l : List α) : List α :=
  l.drop (l.length - n)

/-- Floor of a rational, written directly so it reduces in the kernel. -/
def ratFloor (x : ℚ) : ℤ := Int.fdiv x.num x.den

/-- Round-half-to-even to an integer (CPython's rounding of floats). -/
def roundHalfEven (x : ℚ) : ℤ :=
  let f := ratFloor x
  let r := x - f
  if r < 1/2 then f
  else if 1/2 < r then f + 1
  else if f % 2 = 0 then f else f + 1

/-- Python `round(x, 2)`. -/
def round2 (x : ℚ) : ℚ :=
  (roundHalfEven (x * 100) : ℚ) / 100

/-- Left-pad a string with zeros to width `n`. -/
def padLeftZeros (n : ℕ) (s : String) : String :=
  if s.length < n then String.mk (List.replicate (n - s.length) '0') ++ s
  else s

/-- Insert thousands separators into a reversed digit list; `k` counts the
digits emitted since the last comma. -/
def commaRev : List Char → ℕ → List Char
  | [], _ => []
  | c :: rest, k =>
    if k = 3 then ',' :: c :: commaRev rest 1
    else c :: commaRev rest (k + 1)

/-- Python `{:,}` digit grouping of a digit string. -/
def groupDigits (s : String) : String :=
  String.mk ((commaRev s.data.reverse 0).reverse)

/-- Python fixed-point float formatting: `{:,.0f}`, `{:,.2f}`, `{:+.2f}`,
`{:.2f}` according to the `comma`/`forceSign`/`dec` arguments. -/
def fmtFixed (comma : Bool) (forceSign : Bool) (dec : ℕ) (q : ℚ) : String :=
  let scaled := roundHalfEven (q * ((10 ^ dec : ℕ) : ℚ))
  let sgn := if scaled < 0 then "-" else if forceSign then "+" else ""
  let a := scaled.natAbs
  let ip := a / 10 ^ dec
  let fp := a % 10 ^ dec
  let ipStr := if comma then groupDigits (toString ip) else toString ip
  if dec = 0 then sgn ++ ipStr
  else sgn ++ ipStr ++ "." ++ padLeftZeros dec (toString fp)

/-- Zero-pad an integer to two digits (`strftime` `%m`, `%d`, `%H`, ...). -/
def pad2 (n : ℤ) : String := padLeftZeros 2 (toString n)

/-- Zero-pad an integer to four digits (`strftime` `%Y`). -/
def pad4 (n : ℤ) : String := padLeftZeros 4 (toString n)

/-- Civil date (year, month, day) from days since the Unix epoch
(standard days-from-civil inverse, floor divisions). -/
def civilFromDays (z0 : ℤ) : ℤ × ℤ × ℤ :=
  let z := z0 + 719468
  let era := Int.fdiv z 146097
  let doe := z - era * 146097
  let yoe := Int.fdiv (doe - Int.fdiv doe 1460 + Int.fdiv doe 36524 - Int.fdiv doe 146096) 365
  let y := yoe + era * 400
  let doy := doe - (365 * yoe + Int.fdiv yoe 4 - Int.fdiv yoe 100)
  let mp := Int.fdiv (5 * doy + 2) 153
  let d := doy - Int.fdiv (153 * mp + 2) 5 + 1
  let m := mp + (if mp < 10 then 3 else -9)
  (y + (if m ≤ 2 then 1 else 0), m, d)

/-- `timestamp_to_kst`: Unix timestamp to a `YYYY-MM-DD HH:MM:SS KST`
string; `None` maps to `"N/A"`. -/
def timestamp_to_kst : Option ℤ → String
  | none => "N/A"
  | some ts =>
    let t := ts + 9 * 3600
    let days := Int.fdiv t 86400
    let secs := Int.fmod t 86400
    match civilFromDays days with
    | (y, m, d) =>
      pad4 y ++ "-" ++ pad2 m ++ "-" ++ pad2 d ++ " " ++
      pad2 (Int.fdiv secs 3600) ++ ":" ++ pad2 (Int.fdiv (Int.fmod secs 3600) 60) ++ ":" ++
      pad2 (Int.fmod secs 60) ++ " KST"

/-- One Yahoo Finance `ticker.info` dictionary: the fields the script reads,
each independently optional. -/
structure TickerInfo where
  regularMarketPrice : Option ℚ
  navPrice : Option ℚ
  previousClose : Option ℚ
  regularMarketTime : Option ℤ
deriving DecidableEq

/-- A Python exception: class name (`type(e).__name__`) and message. -/
structure PyError where
  name : String
  msg : String
deriving DecidableEq

/-- The NAV-missing warning set by `get_korean_gold_data`. -/
def navMissingWarning : String := "⚠️ NAV 데이터 누락! 괴리율 계산 불가."

/-- Return value of `get_korean_gold_data`. -/
structure KoreanGoldData where
  market_price : ℚ
  nav_price : Option ℚ
  market_time : Option ℤ
  warning_msg : String
deriving DecidableEq

/-- `get_korean_gold_data`: resolve the ETF market price (falling back to
the previous close), raise when neither exists, and set the NAV-missing
warning when `navPrice` is absent. -/
def get_korean_gold_data (info : TickerInfo) : Except PyError KoreanGoldData :=
  match info.regularMarketPrice.orElse (fun _ => info.previousClose) with
  | none =>
    .error ⟨"RuntimeError",
      "KRX 골드 ETF 가격 및 NAV 조회 실패: ValueError - Yahoo Finance: '411060.KS'의 유효한 시장 가격을 찾을 수 없습니다."⟩
  | some mp =>
    let warning_msg := if info.navPrice = none then navMissingWarning else ""
    .ok ⟨mp, info.navPrice, info.regularMarketTime, warning_msg⟩

/-- `get_yahoo_price`: current price, falling back to the previous close;
raises (as a `RuntimeError` wrapping the `ValueError`) when neither exists. -/
def get_yahoo_price (symbol : String) (info : TickerInfo) : Except PyError ℚ :=
  match info.regularMarketPrice.orElse (fun _ => info.previousClose) with
  | none =>
    .error ⟨"RuntimeError",
      "Yahoo Finance '" ++ symbol ++ "' 데이터 조회 실패: ValueError - Yahoo Finance: '" ++
      symbol ++ "'에 대한 가격 데이터가 누락되었습니다."⟩
  | some p => .ok p

/-- Return value of `get_gold_and_fx_data`. -/
structure FetchedData where
  market_price : ℚ
  nav_price : Option ℚ
  usd_krw : ℚ
  gold_usd : ℚ
  market_time : Option ℤ
  warning_msg : String
deriving DecidableEq

/-- `get_gold_and_fx_data`: fetch FX, international gold and the Korean
gold ETF data, in that order (the first failure propagates). -/
def get_gold_and_fx_data (usdkrwInfo gcInfo etfInfo : TickerInfo) :
    Except PyError FetchedData :=
  match get_yahoo_price "USDKRW=X" usdkrwInfo with
  | .error e => .error e
  | .ok usd_krw =>
    match get_yahoo_price "GC=F" gcInfo with
    | .error e => .error e
    | .ok gold_usd =>
      match get_korean_gold_data etfInfo with
      | .error e => .error e
      | .ok kg =>
        .ok ⟨kg.market_price, kg.nav_price, usd_krw, gold_usd, kg.market_time, kg.warning_msg⟩

/-- The dictionary returned by `calc_premium`. -/
structure PremiumInfo where
  korean : ℚ
  international_krw : ℚ
  usd_krw : ℚ
  gold_usd : ℚ
  premium : Option ℚ
  market_time : Option ℤ
  warning_msg : String
deriving DecidableEq

/-- `calc_premium`: premium is computed as `(market / nav - 1) * 100` when
`nav_price is not None` (a present zero NAV raises `ZeroDivisionError`);
otherwise the premium is `None`.  `international_krw` falls back to the
market price for display when NAV is absent. -/
def calc_premium (usdkrwInfo gcInfo etfInfo : TickerInfo) :
    Except PyError PremiumInfo :=
  match get_gold_and_fx_data usdkrwInfo gcInfo etfInfo with
  | .error e => .error e
  | .ok d =>
    match d.nav_price with
    | some nav =>
      if nav = 0 then .error ⟨"ZeroDivisionError", "float division by zero"⟩
      else
        .ok ⟨d.market_price, nav, d.usd_krw, d.gold_usd,
          some ((d.market_price / nav - 1) * 100), d.market_time, d.warning_msg⟩
    | none =>
      .ok ⟨d.market_price, d.market_price, d.usd_krw, d.gold_usd, none,
        d.market_time, d.warning_msg⟩

/-- One entry of `gold_premium_history.json`:
`{"date": ..., "premium": ..., "time_kst": ...}`. -/
structure HistoryEntry where
  date : String
  premium : ℚ
  time_kst : String
deriving DecidableEq

/-- A decoded JSON value (the result of a successful `json.load`). -/
inductive JsonValue where
  | null : JsonValue
  | bool (b : Bool) : JsonValue
  | num (q : ℚ) : JsonValue
  | str (s : String) : JsonValue
  | arr (elems : List JsonValue) : JsonValue
  | obj (fields : List (String × JsonValue)) : JsonValue

/-- The state of the history file on disk: missing, text that raises
`json.JSONDecodeError`, or text that decodes to a JSON value. -/
inductive FileContent where
  | absent : FileContent
  | malformed : FileContent
  | json (v : JsonValue) : FileContent

/-- `load_history`: return `[]` when the file does not exist or fails JSON
decoding; otherwise return whatever value the file decodes to (no
structural validation is performed). -/
def load_history : FileContent → JsonValue
  | .absent => .arr []
  | .malformed => .arr []
  | .json v => v

/-- `json.dump` of one history entry (insertion order of the dict). -/
def encodeEntry (e : HistoryEntry) : JsonValue :=
  .obj [("date", .str e.date), ("premium", .num e.premium), ("time_kst", .str e.time_kst)]

/-- `save_history`: trim to the last 100 entries and write them as a JSON
array. -/
def save_history (data : List HistoryEntry) : FileContent :=
  .json (.arr ((takeLast 100 data).map encodeEntry))

/-- Read one history entry back from its JSON encoding. -/
def decodeEntry : JsonValue → Option HistoryEntry
  | .obj [("date", .str d), ("premium", .num p), ("time_kst", .str t)] => some ⟨d, p, t⟩
  | _ => none

/-- Read a list of history entries back from JSON array elements. -/
def decodeEntries : List JsonValue → Option (List HistoryEntry)
  | [] => some []
  | j :: rest =>
    match decodeEntry j, decodeEntries rest with
    | some e, some es => some (e :: es)
    | _, _ => none

/-- Read a whole history list back from a JSON value; `none` when the value
is not an array of well-formed entry objects. -/
def decodeHistory : JsonValue → Option (List HistoryEntry)
  | .arr l => decodeEntries l
  | _ => none

/-- The in-place upsert in `main`:
`if history and history[-1]["date"] == today: history[-1] = new else append`
(the new entry's `date` is `today`). -/
def upsert_today (history : List HistoryEntry) (obs : HistoryEntry) : List HistoryEntry :=
  match history.getLast? with
  | some last =>
    if last.date = obs.date then history.dropLast ++ [obs]
    else history ++ [obs]
  | none => history ++ [obs]

/-- `create_graph`: the plotted series (dates, premiums) of the last 7
entries, or `None` when fewer than 2 points exist. -/
def create_graph (history : List HistoryEntry) : Option (List String × List ℚ) :=
  let h := takeLast 7 history
  if h.length < 2 then none
  else some (h.map (fun x => x.date), h.map (fun x => x.premium))

/-- The placeholder returned by `analyze_with_ai` when the OpenAI client
was never initialised. -/
def aiClientMissing : String := "AI 분석 오류: OpenAI 클라이언트 초기화 실패 (API 키 누락)"

/-- `analyze_with_ai`: placeholder when the client is unavailable,
otherwise the external model's reply, or an explanatory error string when
that call raises. -/
def analyze_with_ai (clientOk : Bool) (aiResponse : Except String String)
    (_today_msg : String) (_history : List HistoryEntry) : String :=
  if !clientOk then aiClientMissing
  else
    match aiResponse with
    | .ok s => s
    | .error e => "AI 분석 오류: " ++ e

/-- `sum(l)/len(l) if l else 0`. -/
def avgOf (l : List ℚ) : ℚ :=
  if l = [] then 0 else l.sum / (l.length : ℚ)

/-- All run inputs of one `main()` invocation: the clock, the three ticker
dictionaries, the history file, and the health/responses of the external
services. -/
structure RunCtx where
  today : String
  nowStr : String
  usdkrwInfo : TickerInfo
  gcInfo : TickerInfo
  etfInfo : TickerInfo
  file : FileContent
  clientOk : Bool
  aiResponse : Except String String
  sendOk : Bool
  sendErr : String
  photoOk : Bool
  photoErr : String
  tb : String

/-- Everything `main` computes on a fully successful run. -/
structure Report where
  premiumShown : ℚ
  change : ℚ
  avg7 : ℚ
  level : String
  trend : String
  timeStr : String
  warning : String
  msgData : String
  aiSummary : String
  fullMsg : String
  graph : Option (List String × List ℚ)

/-- The `msg_data` f-string of `main`. -/
def composeMsg (today timeStr warning : String) (korean intl gold fx : ℚ)
    (premium change avg7 : ℚ) (level trend : String) : String :=
  "📅 " ++ today ++ " ACE KRX금현물 ETF 괴리율 알림\n" ++
  "기준 일시: " ++ timeStr ++ "\n" ++
  warning ++ "\n" ++
  "국내 ETF 시장가 (주당): " ++ fmtFixed true false 0 korean ++ "원\n" ++
  "ETF 기준가(NAV) (주당): " ++ fmtFixed true false 0 intl ++ "원\n" ++
  "국제 금시세 (oz): $" ++ fmtFixed true false 2 gold ++ "\n" ++
  "환율: " ++ fmtFixed true false 2 fx ++ "원/$\n" ++
  "👉 ETF 괴리율: " ++ fmtFixed false true 2 premium ++ "% (" ++
    fmtFixed false true 2 change ++ "% vs 전일)\n" ++
  "최근 7일 평균 대비: " ++ level ++ " (" ++ fmtFixed false false 2 avg7 ++ "%) " ++ trend

/-- The `RuntimeError` re-raised by `send_telegram_text` on a requests
failure. -/
def sendFailure (detail : String) : PyError :=
  ⟨"RuntimeError", "텔레그램 메시지 발송 실패: " ++ detail⟩

/-- The tail shared by the two reporting branches of `main`: compose
`msg_data`, obtain the AI summary, send the text, then render and send the
chart.  Returns the file state as of that point together with either the
finished report or the exception that aborted the run. -/
def runTail (c : RunCtx) (file : FileContent) (history : List HistoryEntry)
    (info : PremiumInfo) (premiumShown change avg7 : ℚ)
    (level trend time_str warning : String) :
    FileContent × Except PyError Report :=
  let msg_data := composeMsg c.today time_str warning info.korean
    info.international_krw info.gold_usd info.usd_krw premiumShown change avg7 level trend
  let ai := analyze_with_ai c.clientOk c.aiResponse msg_data history
  let full := msg_data ++ "\n\n🤖 AI 요약:\n" ++ ai
  if !c.sendOk then (file, .error (sendFailure c.sendErr))
  else
    match create_graph history with
    | some g =>
      if !c.photoOk then (file, .error ⟨"HTTPError", c.photoErr⟩)
      else (file, .ok ⟨premiumShown, change, avg7, level, trend, time_str, warning,
        msg_data, ai, full, some g⟩)
    | none =>
      (file, .ok ⟨premiumShown, change, avg7, level, trend, time_str, warning,
        msg_data, ai, full, none⟩)

/-- The body of `main` up to (and including) the notification calls,
returning the on-disk state at exit and either the report or the exception
that escaped to the top-level handler.

Faithfulness notes: a history file whose decoded value is not a list of
well-formed entry objects crashes with a type error once `main` indexes
into it, modelled as an immediate `TypeError`; in the branch where the
premium is `None` and the history is empty, the Python code never assigns
`avg7`, so building `msg_data` raises `UnboundLocalError` — that branch
cannot produce a report. -/
def mainBody (c : RunCtx) : FileContent × Except PyError Report :=
  match calc_premium c.usdkrwInfo c.gcInfo c.etfInfo with
  | .error e => (c.file, .error e)
  | .ok info =>
    match decodeHistory (load_history c.file) with
    | none => (c.file, .error ⟨"TypeError", "history has unexpected structure"⟩)
    | some history =>
      match info.premium with
      | none =>
        match history.getLast? with
        | some last =>
          let premiumShown := last.premium
          let time_str := "과거 (" ++ last.time_kst ++ ")"
          let change : ℚ := 0
          let avg7 := avgOf ((takeLast 7 history).map (fun x => x.premium))
          let level := if premiumShown > avg7 then "고평가" else "저평가"
          let trend := "--- (과거 기록)"
          let warning := info.warning_msg ++ " - 과거 기록된 괴리율 (" ++
            fmtFixed false false 2 premiumShown ++ "%) 표시됨."
          runTail c c.file history info premiumShown change avg7 level trend time_str warning
        | none =>
          (c.file, .error ⟨"UnboundLocalError",
            "cannot access local variable 'avg7' where it is not associated with a value"⟩)
      | some cur =>
        let time_str := timestamp_to_kst info.market_time
        let new_entry : HistoryEntry := ⟨c.today, round2 cur, time_str⟩
        let history := upsert_today history new_entry
        let file := save_history history
        let prev :=
          match (history.filter (fun h => h.date != c.today)).getLast? with
          | some p => p.premium
          | none => cur
        let change := cur - prev
        let avg7 := avgOf ((takeLast 7 history).map (fun x => x.premium))
        let level := if cur > avg7 then "고평가" else "저평가"
        let trend := if change > 0 then "📈 상승세" else "📉 하락세"
        runTail c file history info cur change avg7 level trend time_str info.warning_msg

/-- The incident message built in `main`'s top-level `except` block. -/
def fatalMessage (e : PyError) (tb : String) : String :=
  "🔥 치명적인 오류 발생: " ++ e.name ++ " - " ++ e.msg ++ "\n\n" ++ tb

/-- Python string slicing `s[:n]` (first `n` characters). -/
def truncateChars (n : ℕ) (s : String) : String :=
  String.mk (s.data.take n)

/-- Outcome of a whole run: a delivered report, a fatal error whose
incident notification was delivered, or a fatal error whose incident
notification also failed and was only printed locally. -/
inductive RunOutcome where
  | ok (file : FileContent) (r : Report)
  | fatalReported (file : FileContent) (sentMsg : String)
  | fatalUnreported (file : FileContent) (e : PyError) (localLog : List String)

/-- `main`: run the body; on any exception, attempt to send the incident
message truncated to 4000 characters; when that send also fails, print the
failure and the original exception locally. -/
def runMain (c : RunCtx) : RunOutcome :=
  match mainBody c with
  | (f, .ok r) => .ok f r
  | (f, .error e) =>
    let m := truncateChars 4000 (fatalMessage e c.tb)
    if c.sendOk then .fatalReported f m
    else .fatalUnreported f e
      ["ERROR: 최종 오류 알림 발송 실패: " ++ "텔레그램 메시지 발송 실패: " ++ c.sendErr,
       "Original Exception: " ++ e.msg]

/-- The on-disk history file when the run ends. -/
def RunOutcome.fileAfter : RunOutcome → FileContent
  | .ok f _ => f
  | .fatalReported f _ => f
  | .fatalUnreported f _ _ => f

/-- The delivered report, when the run succeeded. -/
def RunOutcome.reportOf : RunOutcome → Option Report
  | .ok _ r => some r
  | _ => none

/-- The delivered incident message, when the run failed but reported. -/
def RunOutcome.sentFatal : RunOutcome → Option String
  | .fatalReported _ m => some m
  | _ => none

/-- The local log lines, when even the incident report failed. -/
def RunOutcome.localLogOf : RunOutcome → Option (List String)
  | .fatalUnreported _ _ l => some l
  | _ => none

/-- Replace only the history file of a run context (used to state that an
outcome does not depend on the store). -/
def RunCtx.withFile (c : RunCtx) (f : FileContent) : RunCtx :=
  ⟨c.today, c.nowStr, c.usdkrwInfo, c.gcInfo, c.etfInfo, f, c.clientOk, c.aiResponse,
   c.sendOk, c.sendErr, c.photoOk, c.photoErr, c.tb⟩

/-- Concrete run for the spec's empty-history NAV-present scenario:
price 27300, NAV 27000, no prior history, OpenAI client missing. -/
def ctxC9 : RunCtx :=
  ⟨"2025-01-02", "now", ⟨some 1300, none, none, none⟩, ⟨some 2000, none, none, none⟩,
   ⟨some 27300, some 27000, none, some 0⟩, FileContent.absent, false, Except.ok "unused",
   true, "", true, "", ""⟩

/-- Concrete run for the historical-fallback scenario: NAV absent, one
stored observation with premium 1.5 %. -/
def ctxC4 : RunCtx :=
  ⟨"2025-01-02", "now", ⟨some 1300, none, none, none⟩, ⟨some 2000, none, none, none⟩,
   ⟨some 27300, none, none, none⟩,
   save_history [⟨"2025-01-01", 3/2, "2025-01-01 16:00:00 KST"⟩], false, Except.ok "unused",
   true, "", true, "", ""⟩

/-- Concrete run with NAV absent and an arbitrary (even ill-formed) history
file. -/
def ctxC10 : RunCtx :=
  ⟨"2025-01-02", "now", ⟨some 1300, none, none, none⟩, ⟨some 2000, none, none, none⟩,
   ⟨some 27300, none, none, none⟩, FileContent.json (JsonValue.num 7), false,
   Except.ok "unused", true, "", true, "", ""⟩

/-- Concrete run in which the FX quote resolves no price at all and the
Telegram channel is down as well. -/
def ctxC8 : RunCtx :=
  ⟨"2025-01-02", "now", ⟨none, none, none, none⟩, ⟨some 2000, none, none, none⟩,
   ⟨some 27300, some 27000, none, none⟩,
   save_history [⟨"2025-01-01", 3/2, "k"⟩], false, Except.ok "unused",
   false, "connection timed out", true, "", "traceback text"⟩

/-- Abbreviation for the report produced by the shared reporting tail
(`runTail`) on a fully successful delivery. -/
def tailReport (c : RunCtx) (history : List HistoryEntry) (info : PremiumInfo)
    (p ch a7 : ℚ) (lv tr ts w : String) : Report :=
  ⟨p, ch, a7, lv, tr, ts, w,
   composeMsg c.today ts w info.korean info.international_krw info.gold_usd info.usd_krw
     p ch a7 lv tr,
   analyze_with_ai c.clientOk c.aiResponse
     (composeMsg c.today ts w info.korean info.international_krw info.gold_usd info.usd_krw
       p ch a7 lv tr) history,
   composeMsg c.today ts w info.korean info.international_krw info.gold_usd info.usd_krw
       p ch a7 lv tr ++ "\n\n🤖 AI 요약:\n" ++
     analyze_with_ai c.clientOk c.aiResponse
       (composeMsg c.today ts w info.korean info.international_krw info.gold_usd info.usd_krw
         p ch a7 lv tr) history,
   create_graph history⟩

/-! ## Evaluation lemmas for the quote layer and the estimator -/

theorem get_yahoo_price_ok (symbol : String) (info : TickerInfo) (x : ℚ)
    (h : info.regularMarketPrice.orElse (fun _ => info.previousClose) = some x) :
    get_yahoo_price symbol info = .ok x := by
  unfold get_yahoo_price
  rw [h]

theorem get_korean_gold_data_ok (info : TickerInfo) (p : ℚ)
    (h : info.regularMarketPrice.orElse (fun _ => info.previousClose) = some p) :
    get_korean_gold_data info =
      .ok ⟨p, info.navPrice, info.regularMarketTime,
        if info.navPrice = none then navMissingWarning else ""⟩ := by
  unfold get_korean_gold_data
  rw [h]

theorem get_gold_and_fx_data_ok (uInfo gInfo eInfo : TickerInfo) (u g p : ℚ)
    (hu : uInfo.regularMarketPrice.orElse (fun _ => uInfo.previousClose) = some u)
    (hg : gInfo.regularMarketPrice.orElse (fun _ => gInfo.previousClose) = some g)
    (he : eInfo.regularMarketPrice.orElse (fun _ => eInfo.previousClose) = some p) :
    get_gold_and_fx_data uInfo gInfo eInfo =
      .ok ⟨p, eInfo.navPrice, u, g, eInfo.regularMarketTime,
        if eInfo.navPrice = none then navMissingWarning else ""⟩ := by
  unfold get_gold_and_fx_data
  rw [get_yahoo_price_ok _ _ _ hu, get_yahoo_price_ok _ _ _ hg,
    get_korean_gold_data_ok _ _ he]

theorem calc_premium_nav_some_ne (uInfo gInfo eInfo : TickerInfo) (u g p n : ℚ)
    (hu : uInfo.regularMarketPrice.orElse (fun _ => uInfo.previousClose) = some u)
    (hg : gInfo.regularMarketPrice.orElse (fun _ => gInfo.previousClose) = some g)
    (he : eInfo.regularMarketPrice.orElse (fun _ => eInfo.previousClose) = some p)
    (hn : eInfo.navPrice = some n) (h0 : n ≠ 0) :
    calc_premium uInfo gInfo eInfo =
      .ok ⟨p, n, u, g, some ((p / n - 1) * 100), eInfo.regularMarketTime, ""⟩ := by
  unfold calc_premium
  rw [get_gold_and_fx_data_ok _ _ _ _ _ _ hu hg he, hn]
  simp [h0]

theorem calc_premium_nav_zero (uInfo gInfo eInfo : TickerInfo) (u g p : ℚ)
    (hu : uInfo.regularMarketPrice.orElse (fun _ => uInfo.previousClose) = some u)
    (hg : gInfo.regularMarketPrice.orElse (fun _ => gInfo.previousClose) = some g)
    (he : eInfo.regularMarketPrice.orElse (fun _ => eInfo.previousClose) = some p)
    (hn : eInfo.navPrice = some 0) :
    calc_premium uInfo gInfo eInfo =
      .error ⟨"ZeroDivisionError", "float division by zero"⟩ := by
  unfold calc_premium
  rw [get_gold_and_fx_data_ok _ _ _ _ _ _ hu hg he, hn]
  simp

theorem calc_premium_nav_none (uInfo gInfo eInfo : TickerInfo) (u g p : ℚ)
    (hu : uInfo.regularMarketPrice.orElse (fun _ => uInfo.previousClose) = some u)
    (hg : gInfo.regularMarketPrice.orElse (fun _ => gInfo.previousClose) = some g)
    (he : eInfo.regularMarketPrice.orElse (fun _ => eInfo.previousClose) = some p)
    (hn : eInfo.navPrice = none) :
    calc_premium uInfo gInfo eInfo =
      .ok ⟨p, p, u, g, none, eInfo.regularMarketTime, navMissingWarning⟩ := by
  unfold calc_premium
  rw [get_gold_and_fx_data_ok _ _ _ _ _ _ hu hg he, hn]
  simp

/-! ## Claim theorems: the estimator -/

/-- C2: whenever the ETF quote's NAV is present and strictly positive (and
the three quotes resolve a price), `calc_premium` returns exactly
`premium = (etf_price / nav - 1) * 100` with an empty warning message. -/
theorem calc_premium_nav_primary (uInfo gInfo eInfo : TickerInfo) (u g p n : ℚ)
    (hu : uInfo.regularMarketPrice.orElse (fun _ => uInfo.previousClose) = some u)
    (hg : gInfo.regularMarketPrice.orElse (fun _ => gInfo.previousClose) = some g)
    (he : eInfo.regularMarketPrice.orElse (fun _ => eInfo.previousClose) = some p)
    (hn : eInfo.navPrice = some n) (hpos : 0 < n) :
    calc_premium uInfo gInfo eInfo =
      .ok ⟨p, n, u, g, some ((p / n - 1) * 100), eInfo.regularMarketTime, ""⟩ :=
  calc_premium_nav_some_ne uInfo gInfo eInfo u g p n hu hg he hn hpos.ne'

/-- C2 witness: price 27300, NAV 27000 — the primary formula with no warning. -/
theorem calc_premium_nav_primary_witness :
    calc_premium ⟨some 1300, none, none, none⟩ ⟨some 2000, none, none, none⟩
        ⟨some 27300, some 27000, none, some 0⟩ =
      .ok ⟨27300, 27000, 1300, 2000, some ((27300 / 27000 - 1) * 100), some 0, ""⟩ :=
  calc_premium_nav_primary _ _ _ 1300 2000 27300 27000 rfl rfl rfl rfl (by norm_num)

/-- C3 counterexample: with NAV present but equal to zero, `calc_premium`
does take the NAV-division branch and raises `ZeroDivisionError` — the
guard is only `nav_price is not None`, so a division failure is reachable
and no secondary method is used. -/
theorem nav_zero_division_counterexample :
    calc_premium ⟨some 1300, none, none, none⟩ ⟨some 2000, none, none, none⟩
        ⟨some 27300, some 0, none, none⟩ =
      .error ⟨"ZeroDivisionError", "float division by zero"⟩ := by
  with_unfolding_all rfl

/-- C3 amended: the NAV-based division is performed whenever `nav` is
present, regardless of sign — a present zero NAV raises
`ZeroDivisionError`, and a present negative NAV is divided by normally. -/
theorem nav_guard_presence_only (uInfo gInfo eInfo : TickerInfo) (u g p n : ℚ)
    (hu : uInfo.regularMarketPrice.orElse (fun _ => uInfo.previousClose) = some u)
    (hg : gInfo.regularMarketPrice.orElse (fun _ => gInfo.previousClose) = some g)
    (he : eInfo.regularMarketPrice.orElse (fun _ => eInfo.previousClose) = some p)
    (hn : eInfo.navPrice = some n) :
    calc_premium uInfo gInfo eInfo =
      if n = 0 then .error ⟨"ZeroDivisionError", "float division by zero"⟩
      else .ok ⟨p, n, u, g, some ((p / n - 1) * 100), eInfo.regularMarketTime, ""⟩ := by
  by_cases h0 : n = 0
  · subst h0
    rw [calc_premium_nav_zero uInfo gInfo eInfo u g p hu hg he hn]
    simp
  · rw [calc_premium_nav_some_ne uInfo gInfo eInfo u g p n hu hg he hn h0]
    simp [h0]

/-- C3 amended witness: a present negative NAV (-27000) is divided by. -/
theorem nav_guard_presence_only_witness :
    calc_premium ⟨some 1300, none, none, none⟩ ⟨some 2000, none, none, none⟩
        ⟨some 27300, some (-27000), none, none⟩ =
      .ok ⟨27300, -27000, 1300, 2000, some ((27300 / (-27000) - 1) * 100), none, ""⟩ := by
  rw [nav_guard_presence_only ⟨some 1300, none, none, none⟩ ⟨some 2000, none, none, none⟩
    ⟨some 27300, some (-27000), none, none⟩ 1300 2000 27300 (-27000) rfl rfl rfl rfl]
  norm_num

/-- C1 counterexample: the spec's ratio-inference scenario (NAV absent,
`gold_prev = 2000`, `fx_prev = 1300`, `etf_prev = 9000`, `gold_now = 2020`,
`fx_now = 1310`) — `calc_premium` returns `premium = None` with the
"calculation impossible" warning: no ratio-inference estimate exists in the
code. -/
theorem ratio_inference_absent_counterexample :
    calc_premium ⟨some 1310, none, some 1300, none⟩ ⟨some 2020, none, some 2000, none⟩
        ⟨none, none, some 9000, none⟩ =
      .ok ⟨9000, 9000, 1310, 2020, none, none, navMissingWarning⟩ := by
  with_unfolding_all rfl

/-- C1 amended: whenever NAV is absent — previous closes present or not —
`calc_premium` produces no premium (`None`) and the NAV-missing warning;
the only fallback substitutes past history inside `main` (see C4). -/
theorem nav_absent_yields_no_premium (uInfo gInfo eInfo : TickerInfo) (u g p : ℚ)
    (hu : uInfo.regularMarketPrice.orElse (fun _ => uInfo.previousClose) = some u)
    (hg : gInfo.regularMarketPrice.orElse (fun _ => gInfo.previousClose) = some g)
    (he : eInfo.regularMarketPrice.orElse (fun _ => eInfo.previousClose) = some p)
    (hn : eInfo.navPrice = none) :
    calc_premium uInfo gInfo eInfo =
      .ok ⟨p, p, u, g, none, eInfo.regularMarketTime, navMissingWarning⟩ :=
  calc_premium_nav_none uInfo gInfo eInfo u g p hu hg he hn

/-- C1 amended witness: NAV absent with every previous close present still
yields `premium = None`. -/
theorem nav_absent_yields_no_premium_witness :
    calc_premium ⟨some 1310, none, some 1300, none⟩ ⟨some 2020, none, some 2000, none⟩
        ⟨some 9100, none, some 9000, none⟩ =
      .ok ⟨9100, 9100, 1310, 2020, none, none, navMissingWarning⟩ :=
  nav_absent_yields_no_premium _ _ _ 1310 2020 9100 rfl rfl rfl rfl

/-! ## Claim theorems: the history store -/

theorem upsert_dropLast_dates (h : List HistoryEntry) (o : HistoryEntry)
    (hpre : ∀ e ∈ h.dropLast, e.date ≠ o.date) :
    ∀ e ∈ (upsert_today h o).dropLast, e.date ≠ o.date := by
  unfold upsert_today
  cases hl : h.getLast? with
  | none =>
    have hnil : h = [] := List.getLast?_eq_none_iff.mp hl
    subst hnil
    simp
  | some last =>
    obtain ⟨l', rfl⟩ := List.getLast?_eq_some_iff.mp hl
    rw [List.dropLast_concat] at hpre
    by_cases hd : last.date = o.date
    · simp only [if_pos hd, List.dropLast_concat]
      exact hpre
    · simp only [if_neg hd]
      rw [List.dropLast_concat]
      intro e he
      rcases List.mem_append.mp he with h1 | h1
      · exact hpre e h1
      · rcases List.mem_singleton.mp h1 with rfl
        exact hd

theorem upsert_countP (h : List HistoryEntry) (o : HistoryEntry)
    (hpre : ∀ e ∈ h.dropLast, e.date ≠ o.date) :
    (upsert_today h o).countP (fun e => e.date == o.date) = 1 := by
  unfold upsert_today
  cases hl : h.getLast? with
  | none =>
    have hnil : h = [] := List.getLast?_eq_none_iff.mp hl
    subst hnil
    simp
  | some last =>
    obtain ⟨l', rfl⟩ := List.getLast?_eq_some_iff.mp hl
    rw [List.dropLast_concat] at hpre
    have hz : l'.countP (fun e => e.date == o.date) = 0 := by
      rw [List.countP_eq_zero]
      intro a ha
      simpa using hpre a ha
    by_cases hd : last.date = o.date
    · simp only [if_pos hd, List.dropLast_concat]
      rw [List.countP_append, hz]
      simp
    · simp only [if_neg hd]
      rw [List.countP_append, List.countP_append, hz]
      simp [hd]

theorem upsert_concat (h : List HistoryEntry) (o : HistoryEntry) :
    upsert_today h o = h.dropLast ++ [o] ∨ upsert_today h o = h ++ [o] := by
  unfold upsert_today
  cases hl : h.getLast? with
  | none => right; rfl
  | some last =>
    by_cases hd : last.date = o.date
    · left; simp [hd]
    · right; simp [hd]

/-- C5: `upsert_today` replaces the last entry in place when its date
equals the new observation's date and appends otherwise; applying it twice
with the same date gives a sequence of the same length as applying it once,
with the second observation retained as the last element; and when the new
date does not occur before the last position, the result holds exactly one
entry with that date. -/
theorem upsert_today_spec (h : List HistoryEntry) (o o' : HistoryEntry)
    (hd : o'.date = o.date) :
    (∀ last, h.getLast? = some last →
      upsert_today h o = if last.date = o.date then h.dropLast ++ [o] else h ++ [o])
    ∧ (h.getLast? = none → upsert_today h o = [o])
    ∧ upsert_today (upsert_today h o) o' = (upsert_today h o).dropLast ++ [o']
    ∧ (upsert_today (upsert_today h o) o').length = (upsert_today h o).length
    ∧ (upsert_today (upsert_today h o) o').getLast? = some o'
    ∧ ((∀ e ∈ h.dropLast, e.date ≠ o.date) →
        (upsert_today (upsert_today h o) o').countP (fun e => e.date == o.date) = 1) := by
  have hform : ∃ pre, upsert_today h o = pre ++ [o] := by
    rcases upsert_concat h o with h1 | h1
    · exact ⟨h.dropLast, h1⟩
    · exact ⟨h, h1⟩
  obtain ⟨pre, hpre⟩ := hform
  have h3 : upsert_today (upsert_today h o) o' = (upsert_today h o).dropLast ++ [o'] := by
    rw [hpre]
    unfold upsert_today
    rw [List.getLast?_concat]
    simp [hd]
  refine ⟨?_, ?_, h3, ?_, ?_, ?_⟩
  · intro last hl
    unfold upsert_today
    rw [hl]
  · intro hl
    have hnil : h = [] := List.getLast?_eq_none_iff.mp hl
    subst hnil
    rfl
  · rw [h3, hpre, List.dropLast_concat]
    simp
  · rw [h3, List.getLast?_concat]
  · intro hdates
    have hpre' : ∀ e ∈ (upsert_today h o).dropLast, e.date ≠ o'.date := by
      have hu := upsert_dropLast_dates h o hdates
      simpa [hd] using hu
    have hcnt := upsert_countP (upsert_today h o) o' hpre'
    simpa [hd] using hcnt

/-- C5 witness: a two-entry upsert with a repeated date keeps the length
and retains the second observation. -/
theorem upsert_today_spec_witness :
    upsert_today (upsert_today [⟨"2025-01-01", 1, "a"⟩] ⟨"2025-01-02", 2, "b"⟩)
        ⟨"2025-01-02", 3, "c"⟩ =
      (upsert_today [⟨"2025-01-01", 1, "a"⟩] ⟨"2025-01-02", 2, "b"⟩).dropLast ++
        [⟨"2025-01-02", 3, "c"⟩]
    ∧ (upsert_today (upsert_today [⟨"2025-01-01", 1, "a"⟩] ⟨"2025-01-02", 2, "b"⟩)
        ⟨"2025-01-02", 3, "c"⟩).length =
      (upsert_today [⟨"2025-01-01", 1, "a"⟩] ⟨"2025-01-02", 2, "b"⟩).length :=
  ⟨(upsert_today_spec [⟨"2025-01-01", 1, "a"⟩] ⟨"2025-01-02", 2, "b"⟩
      ⟨"2025-01-02", 3, "c"⟩ rfl).2.2.1,
    (upsert_today_spec [⟨"2025-01-01", 1, "a"⟩] ⟨"2025-01-02", 2, "b"⟩
      ⟨"2025-01-02", 3, "c"⟩ rfl).2.2.2.1⟩

theorem takeLast_takeLast {α : Type} (n : ℕ) (l : List α) :
    takeLast n (takeLast n l) = takeLast n l := by
  unfold takeLast
  have hz : l.length - (l.length - n) - n = 0 := by omega
  rw [List.length_drop, hz, List.drop_zero]

theorem decodeEntries_encode (l : List HistoryEntry) :
    decodeEntries (l.map encodeEntry) = some l := by
  induction l with
  | nil => rfl
  | cons e rest ih => simp [decodeEntries, decodeEntry, encodeEntry, ih]

/-- C6: `save_history` keeps exactly the most recent 100 entries in order
and `load_history` round-trips them; re-saving the retained content writes
the identical file; saving 150 entries retains exactly the last 100. -/
theorem save_load_roundtrip (s : List HistoryEntry) :
    decodeHistory (load_history (save_history s)) = some (takeLast 100 s)
    ∧ save_history (takeLast 100 s) = save_history s
    ∧ (s.length = 150 → takeLast 100 s = s.drop 50) := by
  refine ⟨?_, ?_, ?_⟩
  · simp [save_history, load_history, decodeHistory, decodeEntries_encode]
  · unfold save_history
    rw [takeLast_takeLast]
  · intro h150
    unfold takeLast
    rw [h150]

/-- C6 witness: saving 150 identical entries and reloading yields exactly
the last 100 of them. -/
theorem save_load_roundtrip_witness :
    decodeHistory (load_history (save_history
        (List.replicate 150 (⟨"d", 0, "t"⟩ : HistoryEntry)))) =
      some (takeLast 100 (List.replicate 150 (⟨"d", 0, "t"⟩ : HistoryEntry)))
    ∧ takeLast 100 (List.replicate 150 (⟨"d", 0, "t"⟩ : HistoryEntry)) =
      (List.replicate 150 (⟨"d", 0, "t"⟩ : HistoryEntry)).drop 50 :=
  ⟨(save_load_roundtrip _).1, (save_load_roundtrip _).2.2 (by simp)⟩

/-- C7 counterexample: the file content `5` is valid JSON but structurally
invalid history; `load_history` returns it unchanged — not the empty
sequence — because only `json.JSONDecodeError` is caught and no structural
validation is performed. -/
theorem load_history_no_validation_counterexample :
    load_history (FileContent.json (JsonValue.num 5)) = JsonValue.num 5
    ∧ decodeHistory (JsonValue.num 5) = none
    ∧ JsonValue.num 5 ≠ JsonValue.arr [] :=
  ⟨rfl, rfl, fun h => nomatch h⟩

/-- C7 amended: `load_history` returns the empty list for a missing file
and for content that fails JSON decoding; any successfully decoded value —
whatever its structure — is returned as-is without validation. -/
theorem load_history_amended (v : JsonValue) :
    load_history FileContent.absent = JsonValue.arr []
    ∧ load_history FileContent.malformed = JsonValue.arr []
    ∧ load_history (FileContent.json v) = v :=
  ⟨rfl, rfl, rfl⟩

/-! ## Claim theorems: the main run -/

theorem calc_premium_ok_nav_none_premium (u g e : TickerInfo) (info : PremiumInfo)
    (hn : e.navPrice = none) (h : calc_premium u g e = .ok info) :
    info.premium = none := by
  unfold calc_premium get_gold_and_fx_data get_korean_gold_data at h
  rcases h1 : get_yahoo_price "USDKRW=X" u with e1 | q1 <;> rw [h1] at h
  · exact Except.noConfusion h
  rcases h2 : get_yahoo_price "GC=F" g with e2 | q2 <;> rw [h2] at h
  · exact Except.noConfusion h
  rcases h3 : e.regularMarketPrice.orElse (fun _ => e.previousClose) with _ | mp <;>
    rw [h3] at h
  · exact Except.noConfusion h
  rw [hn] at h
  simp at h
  subst h
  rfl

theorem runTail_fst (c : RunCtx) (file : FileContent) (history : List HistoryEntry)
    (info : PremiumInfo) (p ch a7 : ℚ) (lv tr ts w : String) :
    (runTail c file history info p ch a7 lv tr ts w).1 = file := by
  unfold runTail
  cases hs : c.sendOk
  · rfl
  · cases hcg : create_graph history
    · rfl
    · cases hp : c.photoOk <;> rfl

theorem runMain_fileAfter (c : RunCtx) : (runMain c).fileAfter = (mainBody c).1 := by
  unfold runMain
  rcases hm : mainBody c with ⟨f, r⟩
  rcases r with e | r
  · cases hs : c.sendOk <;> simp [RunOutcome.fileAfter]
  · simp [RunOutcome.fileAfter]

theorem mainBody_fst_nav_none (c : RunCtx) (hn : c.etfInfo.navPrice = none) :
    (mainBody c).1 = c.file := by
  unfold mainBody
  rcases hcp : calc_premium c.usdkrwInfo c.gcInfo c.etfInfo with e | info
  · rfl
  · have hp := calc_premium_ok_nav_none_premium _ _ _ info hn hcp
    rcases hdec : decodeHistory (load_history c.file) with _ | hist
    · simp only [hdec]
    · simp only [hdec, hp]
      rcases hl : hist.getLast? with _ | last
      · simp only [hl]
      · simp only [hl]
        exact runTail_fst _ _ _ _ _ _ _ _ _ _ _

/-- C10: whenever the ETF quote's NAV is absent, the run writes nothing to
the history store — `save_history` is reached only on the
successful-computation branch, so every fallback (historical substitution,
empty-history substitution, or any crash) leaves the persisted history
exactly as it was, with no observation recorded for the day. -/
theorem no_save_when_premium_none (c : RunCtx) (hn : c.etfInfo.navPrice = none) :
    (runMain c).fileAfter = c.file := by
  rw [runMain_fileAfter, mainBody_fst_nav_none c hn]

/-- C10 witness: NAV absent with an arbitrary stored file — the file is
untouched. -/
theorem no_save_when_premium_none_witness :
    (runMain ctxC10).fileAfter = FileContent.json (JsonValue.num 7) :=
  (no_save_when_premium_none ctxC10 rfl).trans rfl

theorem truncateChars_length_le (n : ℕ) (s : String) :
    (truncateChars n s).length ≤ n := by
  unfold truncateChars
  exact List.length_take_le n s.data

theorem mainBody_calc_error (c : RunCtx) (err : PyError)
    (hc : calc_premium c.usdkrwInfo c.gcInfo c.etfInfo = .error err) :
    mainBody c = (c.file, .error err) := by
  unfold mainBody
  rw [hc]

/-- C8: when the quote source resolves no usable price, the run aborts
before reading or writing the history store — the file is unchanged and
the whole outcome is independent of the store's content — and attempts an
incident notification built from the error type and description, truncated
to 4000 characters; if that notification also fails, the failure and the
original exception are only printed locally. -/
theorem data_unavailable_abort (c : RunCtx) (err : PyError)
    (hc : calc_premium c.usdkrwInfo c.gcInfo c.etfInfo = .error err) :
    (runMain c).fileAfter = c.file
    ∧ (∀ f', (runMain (c.withFile f')).sentFatal = (runMain c).sentFatal
        ∧ (runMain (c.withFile f')).localLogOf = (runMain c).localLogOf
        ∧ (runMain (c.withFile f')).reportOf = (runMain c).reportOf)
    ∧ (c.sendOk = true →
        (runMain c).sentFatal = some (truncateChars 4000 (fatalMessage err c.tb)))
    ∧ (truncateChars 4000 (fatalMessage err c.tb)).length ≤ 4000
    ∧ (c.sendOk = false → (runMain c).sentFatal = none
        ∧ (runMain c).localLogOf = some
          ["ERROR: 최종 오류 알림 발송 실패: " ++ "텔레그램 메시지 발송 실패: " ++ c.sendErr,
           "Original Exception: " ++ err.msg]) := by
  have hw : ∀ f', calc_premium (c.withFile f').usdkrwInfo (c.withFile f').gcInfo
      (c.withFile f').etfInfo = .error err := fun _ => hc
  have hb := mainBody_calc_error c err hc
  have hbw : ∀ f', mainBody (c.withFile f') = (f', .error err) :=
    fun f' => mainBody_calc_error (c.withFile f') err (hw f')
  refine ⟨?_, ?_, ?_, truncateChars_length_le _ _, ?_⟩
  · rw [runMain_fileAfter, hb]
  · intro f'
    unfold runMain
    rw [hb, hbw f']
    cases hs : c.sendOk <;>
      simp [RunOutcome.sentFatal, RunOutcome.localLogOf, RunOutcome.reportOf, RunCtx.withFile, hs]
  · intro hs
    unfold runMain
    rw [hb]
    simp [hs, RunOutcome.sentFatal]
  · intro hs
    unfold runMain
    rw [hb]
    simp [hs, RunOutcome.sentFatal, RunOutcome.localLogOf]

/-- C8 witness: FX quote with no price at all, Telegram down — the file is
unchanged and the incident is only logged locally. -/
theorem data_unavailable_abort_witness :
    (runMain ctxC8).fileAfter = ctxC8.file
    ∧ (runMain ctxC8).sentFatal = none
    ∧ (runMain ctxC8).localLogOf = some
        ["ERROR: 최종 오류 알림 발송 실패: " ++ "텔레그램 메시지 발송 실패: " ++ "connection timed out",
         "Original Exception: " ++
           ("Yahoo Finance '" ++ "USDKRW=X" ++ "' 데이터 조회 실패: ValueError - Yahoo Finance: '" ++
            "USDKRW=X" ++ "'에 대한 가격 데이터가 누락되었습니다.")] := by
  have h := data_unavailable_abort ctxC8
    ⟨"RuntimeError",
     "Yahoo Finance '" ++ "USDKRW=X" ++ "' 데이터 조회 실패: ValueError - Yahoo Finance: '" ++
       "USDKRW=X" ++ "'에 대한 가격 데이터가 누락되었습니다."⟩
    (by with_unfolding_all rfl)
  exact ⟨h.1, (h.2.2.2.2 rfl).1, (h.2.2.2.2 rfl).2⟩

theorem runTail_snd_ok (c : RunCtx) (file : FileContent) (history : List HistoryEntry)
    (info : PremiumInfo) (p ch a7 : ℚ) (lv tr ts w : String)
    (hs : c.sendOk = true) (hp : c.photoOk = true) :
    (runTail c file history info p ch a7 lv tr ts w).2 =
      .ok (tailReport c history info p ch a7 lv tr ts w) := by
  unfold runTail tailReport
  rw [hs]
  cases hcg : create_graph history with
  | none => rfl
  | some g =>
    rw [hp]
    rfl

/-- C4: when the premium cannot be computed (NAV absent) and the stored
history is non-empty, the run reports the last stored observation's
premium unchanged, forces the day-over-day change to 0, uses the distinct
historical/no-change trend label, appends a past-record note to the status
message, and leaves the history file untouched. -/
theorem historical_fallback (c : RunCtx) (u g p : ℚ)
    (hist : List HistoryEntry) (last : HistoryEntry)
    (hu : c.usdkrwInfo.regularMarketPrice.orElse (fun _ => c.usdkrwInfo.previousClose) = some u)
    (hg : c.gcInfo.regularMarketPrice.orElse (fun _ => c.gcInfo.previousClose) = some g)
    (he : c.etfInfo.regularMarketPrice.orElse (fun _ => c.etfInfo.previousClose) = some p)
    (hn : c.etfInfo.navPrice = none)
    (hf : decodeHistory (load_history c.file) = some hist)
    (hl : hist.getLast? = some last)
    (hs : c.sendOk = true) (hph : c.photoOk = true) :
    (runMain c).fileAfter = c.file
    ∧ (runMain c).reportOf.map (fun r => r.premiumShown) = some last.premium
    ∧ (runMain c).reportOf.map (fun r => r.change) = some 0
    ∧ (runMain c).reportOf.map (fun r => r.trend) = some "--- (과거 기록)"
    ∧ (runMain c).reportOf.map (fun r => r.warning) =
        some (navMissingWarning ++ " - 과거 기록된 괴리율 (" ++
          fmtFixed false false 2 last.premium ++ "%) 표시됨.") := by
  have hcalc := calc_premium_nav_none c.usdkrwInfo c.gcInfo c.etfInfo u g p hu hg he hn
  have hbody : mainBody c = runTail c c.file hist
      ⟨p, p, u, g, none, c.etfInfo.regularMarketTime, navMissingWarning⟩
      last.premium 0 (avgOf ((takeLast 7 hist).map (fun x => x.premium)))
      (if last.premium > avgOf ((takeLast 7 hist).map (fun x => x.premium))
        then "고평가" else "저평가")
      "--- (과거 기록)" ("과거 (" ++ last.time_kst ++ ")")
      (navMissingWarning ++ " - 과거 기록된 괴리율 (" ++
        fmtFixed false false 2 last.premium ++ "%) 표시됨.") := by
    unfold mainBody
    rw [hcalc]
    simp only [hf, hl]
  have hpair : mainBody c = (c.file, Except.ok (tailReport c hist
      ⟨p, p, u, g, none, c.etfInfo.regularMarketTime, navMissingWarning⟩
      last.premium 0 (avgOf ((takeLast 7 hist).map (fun x => x.premium)))
      (if last.premium > avgOf ((takeLast 7 hist).map (fun x => x.premium))
        then "고평가" else "저평가")
      "--- (과거 기록)" ("과거 (" ++ last.time_kst ++ ")")
      (navMissingWarning ++ " - 과거 기록된 괴리율 (" ++
        fmtFixed false false 2 last.premium ++ "%) 표시됨."))) := by
    rw [hbody]
    exact Prod.ext_iff.mpr ⟨runTail_fst _ _ _ _ _ _ _ _ _ _ _,
      runTail_snd_ok _ _ _ _ _ _ _ _ _ _ _ hs hph⟩
  have hrm : runMain c = RunOutcome.ok c.file (tailReport c hist
      ⟨p, p, u, g, none, c.etfInfo.regularMarketTime, navMissingWarning⟩
      last.premium 0 (avgOf ((takeLast 7 hist).map (fun x => x.premium)))
      (if last.premium > avgOf ((takeLast 7 hist).map (fun x => x.premium))
        then "고평가" else "저평가")
      "--- (과거 기록)" ("과거 (" ++ last.time_kst ++ ")")
      (navMissingWarning ++ " - 과거 기록된 괴리율 (" ++
        fmtFixed false false 2 last.premium ++ "%) 표시됨.")) := by
    unfold runMain
    rw [hpair]
  rw [hrm]
  exact ⟨rfl, rfl, rfl, rfl, rfl⟩

/-- C4 witness: NAV absent, history holds one observation with premium
1.5 % — the run reports 1.5 %, zero change, the historical trend label and
the past-record note, and the file is unchanged. -/
theorem historical_fallback_witness :
    (runMain ctxC4).fileAfter = ctxC4.file
    ∧ (runMain ctxC4).reportOf.map (fun r => r.premiumShown) = some (3/2)
    ∧ (runMain ctxC4).reportOf.map (fun r => r.change) = some 0
    ∧ (runMain ctxC4).reportOf.map (fun r => r.trend) = some "--- (과거 기록)"
    ∧ (runMain ctxC4).reportOf.map (fun r => r.warning) =
        some (navMissingWarning ++ " - 과거 기록된 괴리율 (" ++
          fmtFixed false false 2 (3/2) ++ "%) 표시됨.") := by
  have h := historical_fallback ctxC4 1300 2000 27300
    [⟨"2025-01-01", 3/2, "2025-01-01 16:00:00 KST"⟩]
    ⟨"2025-01-01", 3/2, "2025-01-01 16:00:00 KST"⟩
    rfl rfl rfl rfl (by with_unfolding_all rfl) rfl rfl rfl
  exact ⟨h.1, h.2.1, h.2.2.1, h.2.2.2.1, h.2.2.2.2⟩

/-- C9 counterexample: with empty history and NAV present (price 27300,
NAV 27000) the successful branch computes the valuation label by the
over/under comparison — the unrounded premium 10/9 % exceeds the
single-entry 7-day average 1.11 % — so the label is "고평가" (over), not
the claimed unknown label ("N/A" appears only on the premium-missing
empty-history path). -/
theorem empty_history_label_counterexample :
    (runMain ctxC9).reportOf.map (fun r => r.level) = some "고평가"
    ∧ "고평가" ≠ "N/A" :=
  ⟨by with_unfolding_all rfl, by decide⟩

/-- C9 amended: empty history, NAV present (price 27300, NAV 27000) — the
premium is exactly 10/9 % ≈ +1.11 %, stored rounded to 1.11 as the sole
history entry, day-over-day change is 0, and the missing-AI placeholder
appears in the final report; the valuation label, however, is the computed
"고평가" (over) rather than an unknown marker. -/
theorem empty_history_nav_present_amended :
    (runMain ctxC9).fileAfter =
      save_history [⟨"2025-01-02", 111/100, timestamp_to_kst (some 0)⟩]
    ∧ (runMain ctxC9).reportOf.map (fun r => r.premiumShown) =
        some ((27300/27000 - 1) * 100)
    ∧ round2 ((27300/27000 - 1) * 100) = 111/100
    ∧ (runMain ctxC9).reportOf.map (fun r => r.change) = some 0
    ∧ (runMain ctxC9).reportOf.map (fun r => r.level) = some "고평가"
    ∧ (runMain ctxC9).reportOf.map (fun r => r.aiSummary) = some aiClientMissing
    ∧ (runMain ctxC9).reportOf.map (fun r => r.fullMsg) =
        (runMain ctxC9).reportOf.map
          (fun r => r.msgData ++ "\n\n🤖 AI 요약:\n" ++ aiClientMissing) := by
  refine ⟨?_, ?_, ?_, ?_, ?_, ?_, ?_⟩ <;> with_unfolding_all rfl
